import Mathlib

/-!
# github-app-secret: secret materialisation and input validation

A shallow embedding of `appsecret.go` and `cmd/github-app-secret/main.go`.

* A Go `map[string]string` is a finite map from strings to strings; a map-typed
  struct field is `Option` of that, `none` being the Go `nil` map.
* `corev1.Secret` is cut down to the fields the program and the API server
  touch: name, namespace, labels, `data` and the write-only `stringData`.
* The Kubernetes client is an in-memory object list with a scripted list of
  injected API errors and a log of the client calls made. As on an API server,
  a written `stringData` is folded into `data` and never read back, and a
  request without a name or namespace is refused.
-/

namespace GithubAppSecret

/-! ## Data model -/

/-- A non-nil Go `map[string]string`. -/
abbrev StrMap := Finmap (fun _ : String => String)

/-- Go `m[k] = v` on a non-nil map. -/
def StrMap.set (m : StrMap) (k v : String) : StrMap := Finmap.insert k v m

/-- Go `v, ok := m[k]`. -/
def StrMap.get (m : StrMap) (k : String) : Option String := Finmap.lookup k m

/-- Reading a possibly nil Go map: a nil map has no entries. -/
def entries (m : Option StrMap) : StrMap := m.getD ∅

def SecretGit : String := "git"
def SecretPlain : String := "plain"
def SecretArgoCD : String := "argocd"
def SecretArgoCDTemplate : String := "argocd-template"

/-- The fields of `corev1.Secret` used by the program, and `Data`, into which
the API server folds `StringData`; byte values are written as strings. -/
structure Secret where
  Name : String
  Namespace : String
  Labels : Option StrMap
  StringData : Option StrMap
  Data : Option StrMap := none
deriving DecidableEq

/-- The zero value `corev1.Secret{}`. -/
def Secret.zero : Secret :=
  { Name := "", Namespace := "", Labels := none, StringData := none }

/-- Mirror of `client.ObjectKey`. -/
structure ObjectKey where
  Namespace : String
  Name : String
deriving DecidableEq, Repr

/-! ## populateSecret (appsecret.go, lines 98-115) -/

/-- The function `populateSecret`: a nil `StringData` is first replaced by an
empty map, then the keys of the kind are assigned in source order. An unknown
kind assigns nothing. -/
def populateSecret (secret : Secret) (secretType token argocdType argocdURL username : String) :
    Secret :=
  let sd : StrMap := match secret.StringData with
    | none => ∅
    | some m => m
  let sd : StrMap :=
    if secretType = SecretGit then
      (sd.set "username" username).set "password" token
    else if secretType = SecretPlain then
      sd.set "token" token
    else if secretType = SecretArgoCD ∨ secretType = SecretArgoCDTemplate then
      (((sd.set "username" username).set "password" token).set "type" argocdType).set
        "url" argocdURL
    else sd
  { secret with StringData := some sd }

/-- The kind-to-fields table of the specification (section 4.2), column
"stringData fields", written as a key/value listing per kind. -/
def tableRow (kind token argocdType argocdURL username : String) : List (String × String) :=
  if kind = "git" then [("username", username), ("password", token)]
  else if kind = "plain" then [("token", token)]
  else if kind = "argocd" ∨ kind = "argocd-template" then
    [("username", username), ("password", token), ("type", argocdType), ("url", argocdURL)]
  else []

/-- The finite map denoted by a key/value listing with distinct keys. -/
def mapOf (l : List (String × String)) : StrMap :=
  List.toFinmap (l.map fun p => (⟨p.1, p.2⟩ : Sigma fun _ : String => String))

/-- The four kinds accepted by the program. -/
def validKind (kind : String) : Prop :=
  kind = "git" ∨ kind = "plain" ∨ kind = "argocd" ∨ kind = "argocd-template"

instance (kind : String) : Decidable (validKind kind) := by
  unfold validKind; infer_instance

/-! ## The cluster client

`controllerutil.CreateOrPatch` and the `client.Client` it drives belong to
controller-runtime. They are embedded as an in-memory object list. Every API
call is appended to `log` and consumes the head of `faults`: `some e` makes
that call fail with `e`, `none` (or an exhausted script) lets it run. -/

/-- The Go `error` values that can come back from the collaborators. -/
inductive GoError where
  | NotFound
  | AlreadyExists
  | Conflict
  | Forbidden
  | Timeout
  | MutateKeyChanged
  | Invalid
  | Other (msg : String)
deriving DecidableEq, Repr

/-- One request sent to the API server. -/
inductive Call where
  | Get (key : ObjectKey)
  | Create (key : ObjectKey)
  | Patch (key : ObjectKey)
deriving DecidableEq, Repr

/-- The API server as the client sees it: the stored objects, the script of
injected faults still to come, and the client calls made so far. -/
structure Cluster where
  objects : List Secret
  faults : List (Option GoError)
  log : List Call

/-- Mirror of `client.ObjectKeyFromObject`. -/
def Secret.key (s : Secret) : ObjectKey := { Namespace := s.Namespace, Name := s.Name }

/-- The object stored under a key, if any. -/
def Cluster.stored (c : Cluster) (key : ObjectKey) : Option Secret :=
  c.objects.find? fun s => s.key = key

/-- Record an API call and take the next scripted fault. -/
def Cluster.step (c : Cluster) (call : Call) : Option GoError × Cluster :=
  match c.faults with
  | [] => (none, { c with log := c.log ++ [call] })
  | f :: fs => (f, { c with faults := fs, log := c.log ++ [call] })

/-- Replace the first object stored under the key of `obj` by `obj`. -/
def replaceObj (obj : Secret) : List Secret → List Secret
  | [] => []
  | s :: rest => if s.key = obj.key then obj :: rest else s :: replaceObj obj rest

/-- A request needs the object identity: the client refuses an empty resource
name, and a Secret is namespaced, so none is read or written without a
namespace. -/
def validKey (key : ObjectKey) : Bool := decide (key.Name ≠ "" ∧ key.Namespace ≠ "")

/-- What a read returns of a stored Secret: `stringData` is write-only and is
never part of the answer. -/
def readBack (s : Secret) : Secret := { s with StringData := none }

/-- What the API server keeps of a written Secret: the entries of a non-empty
`stringData` overwrite those of `data`, and `stringData` itself is dropped. -/
def persisted (s : Secret) : Secret :=
  if entries s.StringData = ∅ then { s with StringData := none }
  else { s with Data := some (entries s.StringData ∪ entries s.Data), StringData := none }

/-- The call `c.Get(ctx, key, obj)`: on success the passed struct is overwritten by
the stored object as the server returns it; an absent object is a NotFound
error. -/
def Cluster.Get (c : Cluster) (key : ObjectKey) : Except GoError Secret × Cluster :=
  match c.step (Call.Get key) with
  | (some e, c') => (Except.error e, c')
  | (none, c') =>
    if validKey key = false then (Except.error GoError.Invalid, c')
    else
      match c'.stored key with
      | some s => (Except.ok (readBack s), c')
      | none => (Except.error GoError.NotFound, c')

/-- The call `c.Create(ctx, obj)`. -/
def Cluster.Create (c : Cluster) (obj : Secret) : Option GoError × Cluster :=
  match c.step (Call.Create obj.key) with
  | (some e, c') => (some e, c')
  | (none, c') =>
    if validKey obj.key = false then (some GoError.Invalid, c')
    else
      match c'.stored obj.key with
      | some _ => (some GoError.AlreadyExists, c')
      | none => (none, { c' with objects := c'.objects ++ [persisted obj] })

/-- The call `c.Patch(ctx, obj, client.MergeFrom(before))`. The merge patch is the
difference between `before` and `obj`; no other writer exists in this model, so
the stored object read back is `before`, applying the patch to it gives `obj`,
and the server keeps the persisted form of that. -/
def Cluster.Patch (c : Cluster) (obj : Secret) : Option GoError × Cluster :=
  match c.step (Call.Patch obj.key) with
  | (some e, c') => (some e, c')
  | (none, c') =>
    if validKey obj.key = false then (some GoError.Invalid, c')
    else
      match c'.stored obj.key with
      | none => (some GoError.NotFound, c')
      | some _ => (none, { c' with objects := replaceObj (persisted obj) c'.objects })

/-- Mirror of `controllerutil.OperationResult`. -/
inductive OperationResult where
  | None
  | Created
  | Updated
deriving DecidableEq, Repr

/-- What a client operation of the program hands back: the Go `error` (`none` is
`nil`) and the cluster afterwards. -/
structure Outcome where
  result : OperationResult
  err : Option GoError
  cluster : Cluster

/-- The helper `mutate` of controllerutil: run the mutate function and refuse a
changed object key. -/
def mutate (f : Secret → Secret) (key : ObjectKey) (obj : Secret) : Except GoError Secret :=
  let obj' := f obj
  if obj'.key = key then Except.ok obj' else Except.error GoError.MutateKeyChanged

/-- The comparison `reflect.DeepEqual(before, after)` on the unstructured forms:
map fields are `omitempty`, so a nil map and an empty map are the same there. -/
def sameUnstructured (a b : Secret) : Bool :=
  decide (a.Name = b.Name ∧ a.Namespace = b.Namespace ∧ entries a.Labels = entries b.Labels
    ∧ entries a.Data = entries b.Data ∧ entries a.StringData = entries b.StringData)

/-- The function `controllerutil.CreateOrPatch`: Get into the passed struct; on
NotFound run the mutate function and Create; on another error return it;
otherwise run the mutate function on the fetched object and Patch when the
object changed. A Secret has no status, so the status patch never runs. -/
def CreateOrPatch (c : Cluster) (obj : Secret) (f : Secret → Secret) : Outcome :=
  let key := obj.key
  match c.Get key with
  | (Except.error GoError.NotFound, c₁) =>
    match mutate f key obj with
    | Except.error e => { result := OperationResult.None, err := some e, cluster := c₁ }
    | Except.ok obj' =>
      match c₁.Create obj' with
      | (some e, c₂) => { result := OperationResult.None, err := some e, cluster := c₂ }
      | (none, c₂) => { result := OperationResult.Created, err := none, cluster := c₂ }
  | (Except.error e, c₁) => { result := OperationResult.None, err := some e, cluster := c₁ }
  | (Except.ok fetched, c₁) =>
    match mutate f key fetched with
    | Except.error e => { result := OperationResult.None, err := some e, cluster := c₁ }
    | Except.ok obj' =>
      if sameUnstructured fetched obj' then
        { result := OperationResult.None, err := none, cluster := c₁ }
      else
        match c₁.Patch obj' with
        | (some e, c₂) => { result := OperationResult.None, err := some e, cluster := c₂ }
        | (none, c₂) => { result := OperationResult.Updated, err := none, cluster := c₂ }

/-! ## AppSecret (appsecret.go) -/

/-- The configuration fields of `AppSecret`; the embedded client is passed as
the `Cluster` argument of each method. -/
structure AppSecret where
  apiURL : String
  privateKey : String
  appID : Int
  installationID : Int
  argocdType : String
  argocdURL : String
  username : String

/-- The label key written for the ArgoCD kinds. -/
def secretTypeLabel : String := "argocd.argoproj.io/secret-type"

/-- Lines 78-89 of `CreateOrUpdateSecret`: the zero Secret is given the name
and namespace of the key, and a fresh one-entry label map for the two ArgoCD
kinds. -/
def newSecret (namespacedName : ObjectKey) (secretType : String) : Secret :=
  let secret : Secret :=
    { Secret.zero with Name := namespacedName.Name, Namespace := namespacedName.Namespace }
  if secretType = SecretArgoCD then
    { secret with Labels := some ((∅ : StrMap).set secretTypeLabel "repository") }
  else if secretType = SecretArgoCDTemplate then
    { secret with Labels := some ((∅ : StrMap).set secretTypeLabel "repo-creds") }
  else secret

/-- The mutate closure of lines 91-94: `populateSecret` on the captured struct. -/
def mutateFn (as : AppSecret) (secretType token : String) (secret : Secret) : Secret :=
  populateSecret secret secretType token as.argocdType as.argocdURL as.username

/-- The method `AppSecret.CreateOrUpdateSecret`: the struct is named, labelled for
the two ArgoCD kinds, and handed to `CreateOrPatch` with `populateSecret` as
the mutate function. Only the error of `CreateOrPatch` is returned. -/
def CreateOrUpdateSecret (as : AppSecret) (c : Cluster) (namespacedName : ObjectKey)
    (secretType token : String) : Option GoError × Cluster :=
  let secret := newSecret namespacedName secretType
  let r := CreateOrPatch c secret (mutateFn as secretType token)
  (r.err, r.cluster)

/-- The part of `ghinstallation.Transport` the program sets. -/
structure Transport where
  appID : Int
  installationID : Int
  BaseURL : String

/-- The external token provider: `ghinstallation.NewKeyFromFile` and
`Transport.Token`, taken as given operations. -/
structure GitHub where
  NewKeyFromFile : Int → Int → String → Except GoError Transport
  Token : Transport → Except GoError String

/-- The method `AppSecret.GenerateToken`. -/
def GenerateToken (gh : GitHub) (as : AppSecret) : Except GoError String :=
  match gh.NewKeyFromFile as.appID as.installationID as.privateKey with
  | Except.error e => Except.error e
  | Except.ok itr =>
    let itr := if as.apiURL ≠ "" then { itr with BaseURL := as.apiURL } else itr
    gh.Token itr

/-- The method `AppSecret.GenerateAndCreate`. -/
def GenerateAndCreate (gh : GitHub) (as : AppSecret) (c : Cluster) (namespacedName : ObjectKey)
    (secretType : String) : Option GoError × Cluster :=
  match GenerateToken gh as with
  | Except.error e => (some e, c)
  | Except.ok token => CreateOrUpdateSecret as c namespacedName secretType token

/-! ## The command (cmd/github-app-secret/main.go) -/

/-- Mirror of the struct `cmdFlags`; `int64` flags are integers. -/
structure cmdFlags where
  logLevel : Int
  apiURL : String
  appID : Int
  installationID : Int
  privateKeyPath : String
  secretType : String
  timeout : Int
  secretName : String
  secretNamespace : String
  argocdType : String
  argocdURL : String
  username : String

/-- The errors `validateInput` builds, one constructor per `return` of an error. -/
inductive ValidationError where
  | InvalidAPIURL
  | InvalidAppID (id : Int)
  | InvalidInstallationID (id : Int)
  | NoPrivateKeyPath
  | NoSecretName
  | NoArgoCDType
  | NoArgoCDURL
  | InvalidSecretType (secretType : String)
deriving DecidableEq, Repr

/-- The function `validateInput`; `none` is the Go `nil` error. The standard
library's `url.Parse` is the parameter `urlParseOk`, true when it returns no
error. -/
def validateInput (urlParseOk : String → Bool) (cf : cmdFlags) : Option ValidationError :=
  if cf.apiURL ≠ "" ∧ urlParseOk cf.apiURL = false then some ValidationError.InvalidAPIURL
  else if cf.appID = 0 then some (ValidationError.InvalidAppID cf.appID)
  else if cf.installationID = 0 then some (ValidationError.InvalidInstallationID cf.installationID)
  else if cf.privateKeyPath = "" then some ValidationError.NoPrivateKeyPath
  else if cf.secretName = "" then some ValidationError.NoSecretName
  else if cf.secretType = SecretPlain ∨ cf.secretType = SecretGit then none
  else if cf.secretType = SecretArgoCD ∨ cf.secretType = SecretArgoCDTemplate then
    if cf.argocdType = "" then some ValidationError.NoArgoCDType
    else if cf.argocdURL = "" then some ValidationError.NoArgoCDURL
    else none
  else some (ValidationError.InvalidSecretType cf.secretType)

/-- Lines 76-82 of `main`: the namespace starts as the NAMESPACE environment
value, becomes "default" when that is empty, and is replaced by the
`--secretNamespace` flag when the flag is non-empty. -/
def resolveNamespace (env flagValue : String) : String :=
  let ns := env
  let ns := if ns = "" then "default" else ns
  if flagValue ≠ "" then flagValue else ns

/-- Lines 84-87 of `main`: the object key of the secret. -/
def secretKey (cf : cmdFlags) (env : String) : ObjectKey :=
  { Name := cf.secretName, Namespace := resolveNamespace env cf.secretNamespace }

/-- The `NewAppSecret` call of `main` (line 88). -/
def NewAppSecret (apiURL privateKey : String) (appID installationID : Int)
    (argocdType argocdURL username : String) : AppSecret :=
  { apiURL := apiURL, privateKey := privateKey, appID := appID,
    installationID := installationID, argocdType := argocdType, argocdURL := argocdURL,
    username := username }

/-! ## Concrete inputs -/

/-- A configuration with negative IDs that passes every other check. -/
def negativeIDs : cmdFlags :=
  { logLevel := 0, apiURL := "", appID := -1, installationID := -5,
    privateKeyPath := "/key.pem", secretType := "git", timeout := 15,
    secretName := "s", secretNamespace := "", argocdType := "git", argocdURL := "",
    username := "x-access-token" }

/-- An `AppSecret` as `main` builds it from the default flags. -/
def sampleApp : AppSecret :=
  NewAppSecret "" "/key.pem" 7 9 "git" "https://example.com/repo.git" "x-access-token"

def targetKey : ObjectKey := { Namespace := "argocd", Name := "repo" }

/-- A Secret stored under `targetKey` with no labels and no data. -/
def plainTarget : Secret :=
  { Name := "repo", Namespace := "argocd", Labels := none, StringData := none }

/-- A Secret stored under `targetKey` carrying one unrelated label. -/
def labelledTarget : Secret :=
  { Name := "repo", Namespace := "argocd", Labels := some (mapOf [("team", "a")]),
    StringData := none }

/-- The cluster holding the given objects, with no injected fault and an empty
call log. -/
def faultFree (objs : List Secret) : Cluster := { objects := objs, faults := [], log := [] }

def emptyCluster : Cluster := { objects := [], faults := [], log := [] }

def clusterWithTarget : Cluster := { objects := [plainTarget], faults := [], log := [] }

def clusterWithLabelled : Cluster := { objects := [labelledTarget], faults := [], log := [] }

/-- The target exists; the Get succeeds and the next API call fails with a
conflict; nothing fails afterwards. -/
def conflictCluster : Cluster :=
  { objects := [plainTarget], faults := [none, some GoError.Conflict], log := [] }

/-- A token provider whose key file cannot be read. -/
def failingGitHub : GitHub :=
  { NewKeyFromFile := fun _ _ _ => Except.error (GoError.Other "could not read private key"),
    Token := fun _ => Except.ok "unused" }

/-- A token provider returning a canned token. -/
def cannedGitHub : GitHub :=
  { NewKeyFromFile := fun a i _ => Except.ok { appID := a, installationID := i, BaseURL := "" },
    Token := fun _ => Except.ok "tok123" }

/-! ## Lemmas on maps -/

theorem StrMap.get_set_self (m : StrMap) (k v : String) : (m.set k v).get k = some v := by
  simp [StrMap.get, StrMap.set]

theorem StrMap.get_set_of_ne (m : StrMap) (k k' v : String) (h : k' ≠ k) :
    (m.set k v).get k' = m.get k' := by
  simp [StrMap.get, StrMap.set, Finmap.lookup_insert_of_ne _ h]

theorem StrMap.get_set (m : StrMap) (k k' v : String) :
    (m.set k v).get k' = if k' = k then some v else m.get k' := by
  by_cases h : k' = k
  · subst h; simp [StrMap.get_set_self]
  · simp [h, StrMap.get_set_of_ne _ _ _ _ h]

theorem StrMap.ext (m₁ m₂ : StrMap) (h : ∀ k, m₁.get k = m₂.get k) : m₁ = m₂ :=
  Finmap.ext_lookup h

theorem StrMap.get_empty (k : String) : (∅ : StrMap).get k = none := by
  simp [StrMap.get]

theorem mapOf_nil : mapOf [] = ∅ := by
  simp [mapOf]

theorem mapOf_cons (k v : String) (l : List (String × String)) :
    mapOf ((k, v) :: l) = (mapOf l).set k v := by
  simp [mapOf, StrMap.set, Finmap.toFinmap_cons]

theorem lookup_cons_ite (k a b : String) (l : List (String × String)) :
    List.lookup k ((a, b) :: l) = if k = a then some b else List.lookup k l := by
  rw [List.lookup_cons]
  by_cases h : k = a
  · subst h; simp
  · have h' : (k == a) = false := by simpa using h
    simp [h, h']

theorem get_mapOf (l : List (String × String)) (k : String) :
    (mapOf l).get k = l.lookup k := by
  induction l with
  | nil => simp [mapOf_nil, StrMap.get_empty]
  | cons p l ih =>
    obtain ⟨a, b⟩ := p
    rw [mapOf_cons, StrMap.get_set, ih, lookup_cons_ite]

/-- The StringData of `populateSecret`, key by key: the kind's listing first, the
previous map for every other key. -/
theorem populateSecret_get (s : Secret) (kind token argocdType argocdURL username k : String) :
    (entries (populateSecret s kind token argocdType argocdURL username).StringData).get k
      = match (tableRow kind token argocdType argocdURL username).lookup k with
        | some v => some v
        | none => (entries s.StringData).get k := by
  have hsd : (match s.StringData with | none => (∅ : StrMap) | some m => m)
      = entries s.StringData := by
    cases s.StringData <;> rfl
  simp only [populateSecret, hsd, tableRow, SecretGit, SecretPlain, SecretArgoCD,
    SecretArgoCDTemplate]
  by_cases h1 : kind = "git"
  · subst h1
    simp only [if_true, entries, Option.getD_some, StrMap.get_set, lookup_cons_ite,
      List.lookup_nil]
    by_cases a : k = "password" <;> by_cases b : k = "username" <;> simp_all
  · by_cases h2 : kind = "plain"
    · subst h2
      simp only [h1, if_false, if_true, entries, Option.getD_some, StrMap.get_set,
        lookup_cons_ite, List.lookup_nil]
      by_cases a : k = "token" <;> simp_all
    · by_cases h3 : kind = "argocd" ∨ kind = "argocd-template"
      · simp only [h1, h2, h3, if_false, if_true, entries, Option.getD_some, StrMap.get_set,
          lookup_cons_ite, List.lookup_nil]
        by_cases a : k = "url" <;> by_cases b : k = "type" <;> by_cases c : k = "password" <;>
          by_cases d : k = "username" <;> simp_all
      · simp [h1, h2, h3, entries]

theorem populateSecret_stringData_some (s : Secret)
    (kind token argocdType argocdURL username : String) :
    (populateSecret s kind token argocdType argocdURL username).StringData
      = some (entries (populateSecret s kind token argocdType argocdURL username).StringData) := by
  simp [populateSecret, entries]

theorem populateSecret_fresh (s : Secret) (kind token argocdType argocdURL username : String)
    (hs : s.StringData = none ∨ s.StringData = some ∅) :
    (populateSecret s kind token argocdType argocdURL username).StringData
      = some (mapOf (tableRow kind token argocdType argocdURL username)) := by
  rw [populateSecret_stringData_some]
  congr 1
  apply StrMap.ext
  intro k
  rw [populateSecret_get, get_mapOf]
  have he : (entries s.StringData).get k = none := by
    rcases hs with h | h <;> simp [h, entries, StrMap.get_empty]
  rw [he]
  cases List.lookup k (tableRow kind token argocdType argocdURL username) <;> rfl

theorem tableRow_lookup_of_mem (kind token argocdType argocdURL username k v : String)
    (h : (k, v) ∈ tableRow kind token argocdType argocdURL username) :
    (tableRow kind token argocdType argocdURL username).lookup k = some v := by
  unfold tableRow at h ⊢
  split_ifs at h ⊢
  · simp only [List.mem_cons, Prod.mk.injEq, List.mem_singleton, List.not_mem_nil,
      or_false] at h
    rcases h with ⟨rfl, rfl⟩ | ⟨rfl, rfl⟩ <;> simp [lookup_cons_ite]
  · simp only [List.mem_singleton, Prod.mk.injEq] at h
    obtain ⟨rfl, rfl⟩ := h
    simp [lookup_cons_ite]
  · simp only [List.mem_cons, Prod.mk.injEq, List.mem_singleton, List.not_mem_nil,
      or_false] at h
    rcases h with ⟨rfl, rfl⟩ | ⟨rfl, rfl⟩ | ⟨rfl, rfl⟩ | ⟨rfl, rfl⟩ <;> simp [lookup_cons_ite]
  · simp at h

theorem tableRow_lookup_of_not_mem (kind token argocdType argocdURL username k : String)
    (h : k ∉ (tableRow kind token argocdType argocdURL username).map Prod.fst) :
    (tableRow kind token argocdType argocdURL username).lookup k = none := by
  unfold tableRow at h ⊢
  split_ifs at h ⊢ <;> simp_all [lookup_cons_ite]

/-! ## Lemmas on the cluster client -/

theorem find_append_single (p : Secret → Bool) (l : List Secret) (obj : Secret)
    (hl : l.find? p = none) (hp : p obj = true) : (l ++ [obj]).find? p = some obj := by
  induction l with
  | nil => simp [List.find?, hp]
  | cons a l ih =>
    rw [List.find?_cons] at hl
    cases hpa : p a with
    | true => simp [hpa] at hl
    | false =>
      simp only [hpa] at hl
      simp [List.find?_cons, hpa, ih hl]

theorem find_replaceObj (obj : Secret) (l : List Secret) (s : Secret)
    (hl : l.find? (fun x => decide (x.key = obj.key)) = some s) :
    (replaceObj obj l).find? (fun x => decide (x.key = obj.key)) = some obj := by
  induction l with
  | nil => simp at hl
  | cons a l ih =>
    by_cases ha : a.key = obj.key
    · simp [replaceObj, ha, List.find?_cons]
    · rw [List.find?_cons] at hl
      simp only [ha, decide_False] at hl
      simp [replaceObj, ha, List.find?_cons, ih hl]

theorem populateSecret_key (s : Secret) (kind token argocdType argocdURL username : String) :
    (populateSecret s kind token argocdType argocdURL username).key = s.key := rfl

theorem populateSecret_labels (s : Secret) (kind token argocdType argocdURL username : String) :
    (populateSecret s kind token argocdType argocdURL username).Labels = s.Labels := rfl

theorem newSecret_key (key : ObjectKey) (kind : String) : (newSecret key kind).key = key := by
  unfold newSecret
  split_ifs <;> rfl

theorem Get_eq (c : Cluster) (key : ObjectKey) :
    c.Get key =
      ((match c.faults.head?.join with
        | some e => Except.error e
        | none =>
          if validKey key = false then Except.error GoError.Invalid
          else match c.stored key with
            | some s => Except.ok (readBack s)
            | none => Except.error GoError.NotFound),
       { c with faults := c.faults.tail, log := c.log ++ [Call.Get key] }) := by
  obtain ⟨objs, faults, log⟩ := c
  rcases faults with _ | ⟨_ | e, fs⟩ <;>
    simp only [Cluster.Get, Cluster.step, Cluster.stored, List.head?, List.tail, Option.join] <;>
    split_ifs <;> try rfl
  all_goals split <;> simp_all

theorem Create_eq (c : Cluster) (obj : Secret) :
    c.Create obj =
      match c.faults.head?.join with
      | some e => (some e, { c with faults := c.faults.tail, log := c.log ++ [Call.Create obj.key] })
      | none =>
        if validKey obj.key = false then
          (some GoError.Invalid,
            { c with faults := c.faults.tail, log := c.log ++ [Call.Create obj.key] })
        else match c.stored obj.key with
          | some _ => (some GoError.AlreadyExists,
              { c with faults := c.faults.tail, log := c.log ++ [Call.Create obj.key] })
          | none =>
            (none, { objects := c.objects ++ [persisted obj], faults := c.faults.tail,
                     log := c.log ++ [Call.Create obj.key] }) := by
  obtain ⟨objs, faults, log⟩ := c
  rcases faults with _ | ⟨_ | e, fs⟩ <;>
    simp only [Cluster.Create, Cluster.step, Cluster.stored, List.head?, List.tail,
      Option.join] <;>
    split_ifs <;> rfl

theorem Patch_eq (c : Cluster) (obj : Secret) :
    c.Patch obj =
      match c.faults.head?.join with
      | some e => (some e, { c with faults := c.faults.tail, log := c.log ++ [Call.Patch obj.key] })
      | none =>
        if validKey obj.key = false then
          (some GoError.Invalid,
            { c with faults := c.faults.tail, log := c.log ++ [Call.Patch obj.key] })
        else match c.stored obj.key with
          | none => (some GoError.NotFound,
              { c with faults := c.faults.tail, log := c.log ++ [Call.Patch obj.key] })
          | some _ =>
            (none, { objects := replaceObj (persisted obj) c.objects, faults := c.faults.tail,
                     log := c.log ++ [Call.Patch obj.key] }) := by
  obtain ⟨objs, faults, log⟩ := c
  rcases faults with _ | ⟨_ | e, fs⟩ <;>
    simp only [Cluster.Patch, Cluster.step, Cluster.stored, List.head?, List.tail,
      Option.join] <;>
    split_ifs <;> rfl

theorem stored_key (c : Cluster) (key : ObjectKey) (s : Secret) (hs : c.stored key = some s) :
    s.key = key := by
  have := List.find?_some hs
  simpa using this

theorem persisted_key (s : Secret) : (persisted s).key = s.key := by
  unfold persisted
  split_ifs <;> rfl

theorem persisted_labels (s : Secret) : (persisted s).Labels = s.Labels := by
  unfold persisted
  split_ifs <;> rfl

theorem persisted_stringData (s : Secret) : (persisted s).StringData = none := by
  unfold persisted
  split_ifs <;> rfl

theorem readBack_key (s : Secret) : (readBack s).key = s.key := rfl

theorem readBack_of_none (s : Secret) (h : s.StringData = none) : readBack s = s := by
  cases s
  simp_all [readBack]

/-- Every run of `CreateOrPatch` with a key-preserving mutate function, by the
outcome of the Get (first scripted fault, key, stored object) and of the write
(second scripted fault). -/
theorem CreateOrPatch_cases (c : Cluster) (obj : Secret) (f : Secret → Secret)
    (hf : ∀ s, (f s).key = s.key) :
    (∃ e, (CreateOrPatch c obj f).err = some e
      ∧ (CreateOrPatch c obj f).cluster.objects = c.objects
      ∧ (CreateOrPatch c obj f).cluster.faults = c.faults.tail
      ∧ (CreateOrPatch c obj f).cluster.log = c.log ++ [Call.Get obj.key]
      ∧ ((c.faults.head?.join = some e ∧ e ≠ GoError.NotFound)
        ∨ (c.faults.head?.join = none ∧ validKey obj.key = false)))
    ∨ ((c.faults.head?.join = some GoError.NotFound
          ∨ (c.faults.head?.join = none ∧ validKey obj.key = true ∧ c.stored obj.key = none))
      ∧ (CreateOrPatch c obj f).cluster.faults = c.faults.tail.tail
      ∧ (CreateOrPatch c obj f).cluster.log = c.log ++ [Call.Get obj.key, Call.Create obj.key]
      ∧ ((∃ e, c.faults.tail.head?.join = some e ∧ (CreateOrPatch c obj f).err = some e
            ∧ (CreateOrPatch c obj f).cluster.objects = c.objects)
        ∨ (c.faults.tail.head?.join = none
            ∧ (validKey obj.key = false ∨ c.stored obj.key ≠ none)
            ∧ (CreateOrPatch c obj f).err ≠ none
            ∧ (CreateOrPatch c obj f).cluster.objects = c.objects)
        ∨ (c.faults.tail.head?.join = none ∧ validKey obj.key = true
            ∧ c.stored obj.key = none
            ∧ (CreateOrPatch c obj f).err = none
            ∧ (CreateOrPatch c obj f).cluster.objects = c.objects ++ [persisted (f obj)])))
    ∨ ∃ s, c.faults.head?.join = none ∧ validKey obj.key = true ∧ c.stored obj.key = some s
      ∧ ((sameUnstructured (readBack s) (f (readBack s)) = true
          ∧ (CreateOrPatch c obj f).err = none
          ∧ (CreateOrPatch c obj f).cluster.objects = c.objects
          ∧ (CreateOrPatch c obj f).cluster.faults = c.faults.tail
          ∧ (CreateOrPatch c obj f).cluster.log = c.log ++ [Call.Get obj.key])
        ∨ (sameUnstructured (readBack s) (f (readBack s)) = false
          ∧ (CreateOrPatch c obj f).cluster.faults = c.faults.tail.tail
          ∧ (CreateOrPatch c obj f).cluster.log
              = c.log ++ [Call.Get obj.key, Call.Patch obj.key]
          ∧ ((∃ e, c.faults.tail.head?.join = some e ∧ (CreateOrPatch c obj f).err = some e
                ∧ (CreateOrPatch c obj f).cluster.objects = c.objects)
            ∨ (c.faults.tail.head?.join = none ∧ (CreateOrPatch c obj f).err = none
                ∧ (CreateOrPatch c obj f).cluster.objects
                    = replaceObj (persisted (f (readBack s))) c.objects)))) := by
  simp only [CreateOrPatch, Get_eq]
  cases h1 : c.faults.head?.join with
  | some e =>
    cases e
    case NotFound =>
      right; left
      simp only [mutate, hf, if_true, Create_eq]
      refine ⟨Or.inl trivial, ?_⟩
      cases h2 : c.faults.tail.head?.join with
      | some e => simp
      | none =>
        simp only [Cluster.stored]
        by_cases hv : validKey obj.key = false
        · simp only [hv, if_true]; simp
        · have hv' : validKey obj.key = true := by simpa using hv
          simp only [hv', Bool.true_eq_false, if_false]
          cases h3 : c.stored obj.key with
          | some s => simp only [Cluster.stored] at h3; simp only [h3]; simp
          | none => simp only [Cluster.stored] at h3; simp only [h3]; simp
    all_goals (left; simp)
  | none =>
    by_cases hv : validKey obj.key = false
    · left
      simp only [hv, if_true]
      simp
    · have hv' : validKey obj.key = true := by simpa using hv
      simp only [hv', Bool.true_eq_false, if_false]
      cases h3 : c.stored obj.key with
      | none =>
        right; left
        simp only [mutate, hf, if_true, Create_eq, hv', Bool.true_eq_false, if_false]
        cases h2 : c.faults.tail.head?.join with
        | some e => simp
        | none =>
          simp only [Cluster.stored] at h3
          simp only [Cluster.stored, h3]
          simp
      | some s =>
        have hs := stored_key c obj.key s h3
        right; right
        refine ⟨s, trivial, trivial, rfl, ?_⟩
        simp only [mutate, hf, readBack_key, hs, if_true]
        cases h4 : sameUnstructured (readBack s) (f (readBack s)) with
        | true => simp
        | false =>
          simp only [Patch_eq, hf, readBack_key, hs, hv', Bool.true_eq_false, if_false]
          cases h2 : c.faults.tail.head?.join with
          | some e => simp
          | none =>
            simp only [Cluster.stored] at h3
            simp only [Cluster.stored, h3]
            simp

theorem union_union_self (m d : StrMap) : m ∪ (m ∪ d) = m ∪ d := by
  apply Finmap.ext_lookup
  intro k
  by_cases hk : k ∈ m
  · rw [Finmap.lookup_union_left hk, Finmap.lookup_union_left hk]
  · rw [Finmap.lookup_union_right hk]

theorem mutateFn_of_none (as : AppSecret) (kind token : String) (y : Secret)
    (hy : y.StringData = none) :
    mutateFn as kind token y
      = { y with StringData := some (mapOf (tableRow kind token as.argocdType as.argocdURL
          as.username)) } := by
  have h := populateSecret_fresh y kind token as.argocdType as.argocdURL as.username (Or.inl hy)
  calc mutateFn as kind token y
      = { y with StringData := (populateSecret y kind token as.argocdType as.argocdURL
          as.username).StringData } := rfl
    _ = _ := by rw [h]

theorem persisted_mutateFn_of_empty (as : AppSecret) (kind token : String) (y : Secret)
    (hy : y.StringData = none)
    (hM : mapOf (tableRow kind token as.argocdType as.argocdURL as.username) = ∅) :
    persisted (mutateFn as kind token y) = y := by
  rw [mutateFn_of_none as kind token y hy]
  obtain ⟨n, ns, l, sd, d⟩ := y
  simp only at hy
  subst hy
  simp [persisted, entries, hM]

theorem persisted_mutateFn_of_nonempty (as : AppSecret) (kind token : String) (y : Secret)
    (hy : y.StringData = none)
    (hM : mapOf (tableRow kind token as.argocdType as.argocdURL as.username) ≠ ∅) :
    persisted (mutateFn as kind token y)
      = { y with Data := some (mapOf (tableRow kind token as.argocdType as.argocdURL
          as.username) ∪ entries y.Data) } := by
  rw [mutateFn_of_none as kind token y hy]
  obtain ⟨n, ns, l, sd, d⟩ := y
  simp only at hy
  subst hy
  simp [persisted, entries, hM]

/-- Writing the mutation of an object read back from the server gives an object
that a further mutate-and-write leaves as it is. -/
theorem persisted_mutate_stable (as : AppSecret) (kind token : String) (x : Secret)
    (hx : x.StringData = none) :
    sameUnstructured (persisted (mutateFn as kind token x))
        (mutateFn as kind token (persisted (mutateFn as kind token x))) = true
    ∨ persisted (mutateFn as kind token (persisted (mutateFn as kind token x)))
        = persisted (mutateFn as kind token x) := by
  by_cases hM : mapOf (tableRow kind token as.argocdType as.argocdURL as.username) = ∅
  · left
    rw [persisted_mutateFn_of_empty as kind token x hx hM, mutateFn_of_none as kind token x hx]
    simp [sameUnstructured, entries, hM, hx]
  · right
    rw [persisted_mutateFn_of_nonempty as kind token x hx hM]
    rw [persisted_mutateFn_of_nonempty as kind token
      { x with Data := some (mapOf (tableRow kind token as.argocdType as.argocdURL
          as.username) ∪ entries x.Data) } hx hM]
    simp [entries, union_union_self]

theorem replaceObj_self (l : List Secret) (s : Secret)
    (h : l.find? (fun x => decide (x.key = s.key)) = some s) : replaceObj s l = l := by
  induction l with
  | nil => rfl
  | cons a l ih =>
    by_cases ha : a.key = s.key
    · rw [List.find?_cons] at h
      simp only [ha, decide_True] at h
      cases h
      simp [replaceObj]
    · rw [List.find?_cons] at h
      simp only [ha, decide_False] at h
      simp [replaceObj, ha, ih h]

theorem CreateOrPatch_stored_after (c : Cluster) (obj : Secret) (f : Secret → Secret)
    (hf : ∀ s, (f s).key = s.key) (hok : (CreateOrPatch c obj f).err = none) :
    (c.stored obj.key = none
      ∧ (CreateOrPatch c obj f).cluster.stored obj.key = some (persisted (f obj)))
    ∨ ∃ s, c.stored obj.key = some s ∧
        ((sameUnstructured (readBack s) (f (readBack s)) = true
            ∧ (CreateOrPatch c obj f).cluster.objects = c.objects
            ∧ (CreateOrPatch c obj f).cluster.stored obj.key = some s)
          ∨ (CreateOrPatch c obj f).cluster.stored obj.key
              = some (persisted (f (readBack s)))) := by
  rcases CreateOrPatch_cases c obj f hf with
    ⟨e, he, _⟩ | ⟨_, _, _, ⟨e, _, he, _⟩ | ⟨_, _, hne, _⟩ | ⟨_, _, hst, _, ho⟩⟩ |
    ⟨s, _, _, hst, ⟨hsame, _, ho, _⟩ | ⟨_, _, _, ⟨e, _, he, _⟩ | ⟨_, _, ho⟩⟩⟩
  · rw [hok] at he; cases he
  · rw [hok] at he; cases he
  · exact absurd hok hne
  · left
    refine ⟨hst, ?_⟩
    unfold Cluster.stored at hst ⊢
    rw [ho]
    exact find_append_single _ _ _ hst (by simp [persisted_key, hf])
  · right
    refine ⟨s, hst, Or.inl ⟨hsame, ho, ?_⟩⟩
    unfold Cluster.stored at hst ⊢
    rw [ho, hst]
  · rw [hok] at he; cases he
  · right
    refine ⟨s, hst, Or.inr ?_⟩
    have hs := stored_key c obj.key s hst
    unfold Cluster.stored at hst ⊢
    rw [ho]
    have hk : (persisted (f (readBack s))).key = obj.key := by
      rw [persisted_key, hf, readBack_key, hs]
    rw [← hk] at hst ⊢
    exact find_replaceObj (persisted (f (readBack s))) c.objects s hst

theorem CreateOrPatch_no_fault (c : Cluster) (obj : Secret) (f : Secret → Secret)
    (hf : ∀ s, (f s).key = s.key) (h0 : c.faults = []) (hv : validKey obj.key = true) :
    (CreateOrPatch c obj f).err = none ∧ (CreateOrPatch c obj f).cluster.faults = [] := by
  rcases CreateOrPatch_cases c obj f hf with
    ⟨e, _, _, _, _, ⟨hg, _⟩ | ⟨_, hiv⟩⟩ |
    ⟨hg, hfl, _, ⟨e, hg2, _⟩ | ⟨_, hiv | hne, _⟩ | ⟨_, _, _, he, _⟩⟩ |
    ⟨s, _, _, hst, ⟨_, he, _, hfl, _⟩ | ⟨_, hfl, _, ⟨e, hg2, _⟩ | ⟨_, he, _⟩⟩⟩
  · simp [h0] at hg
  · rw [hv] at hiv; cases hiv
  · simp [h0] at hg2
  · rw [hv] at hiv; cases hiv
  · rcases hg with hg | ⟨_, _, hst⟩
    · simp [h0] at hg
    · exact absurd hst hne
  · exact ⟨he, by rw [hfl, h0]; rfl⟩
  · exact ⟨he, by rw [hfl, h0]; rfl⟩
  · simp [h0] at hg2
  · exact ⟨he, by rw [hfl, h0]; rfl⟩

theorem CreateOrPatch_log (c : Cluster) (obj : Secret) (f : Secret → Secret)
    (hf : ∀ s, (f s).key = s.key) :
    (CreateOrPatch c obj f).cluster.log = c.log ++ [Call.Get obj.key]
    ∨ (CreateOrPatch c obj f).cluster.log = c.log ++ [Call.Get obj.key, Call.Create obj.key]
    ∨ (CreateOrPatch c obj f).cluster.log = c.log ++ [Call.Get obj.key, Call.Patch obj.key] := by
  rcases CreateOrPatch_cases c obj f hf with
    ⟨e, _, _, _, hl, _⟩ | ⟨_, _, hl, _⟩ | ⟨s, _, _, _, ⟨_, _, _, _, hl⟩ | ⟨_, _, hl, _⟩⟩
  · exact Or.inl hl
  · exact Or.inr (Or.inl hl)
  · exact Or.inl hl
  · exact Or.inr (Or.inr hl)

theorem CreateOrPatch_write_error (c : Cluster) (obj : Secret) (f : Secret → Secret)
    (hf : ∀ s, (f s).key = s.key) (e : GoError) (rest : List (Option GoError))
    (hfl : c.faults = none :: some e :: rest)
    (hlen : (CreateOrPatch c obj f).cluster.log.length = c.log.length + 2) :
    (CreateOrPatch c obj f).err = some e ∧ (CreateOrPatch c obj f).cluster.objects = c.objects := by
  rcases CreateOrPatch_cases c obj f hf with
    ⟨e', _, _, _, hl, _⟩ | ⟨_, _, _, ⟨e', hg2, he, ho⟩ | ⟨hg2, _⟩ | ⟨hg2, _⟩⟩ |
    ⟨s, _, _, hst, ⟨_, _, _, _, hl⟩ | ⟨_, _, _, ⟨e', hg2, he, ho⟩ | ⟨hg2, _⟩⟩⟩
  · rw [hl] at hlen; simp at hlen
  · simp [hfl] at hg2; subst hg2; exact ⟨he, ho⟩
  · simp [hfl] at hg2
  · simp [hfl] at hg2
  · rw [hl] at hlen; simp at hlen
  · simp [hfl] at hg2; subst hg2; exact ⟨he, ho⟩
  · simp [hfl] at hg2

/-- A call on a key without name or namespace changes no object. -/
theorem CreateOrPatch_invalid_key (c : Cluster) (obj : Secret) (f : Secret → Secret)
    (hf : ∀ s, (f s).key = s.key) (hv : validKey obj.key = false) :
    (CreateOrPatch c obj f).cluster.objects = c.objects := by
  rcases CreateOrPatch_cases c obj f hf with
    ⟨e, _, ho, _⟩ | ⟨_, _, _, ⟨e, _, _, ho⟩ | ⟨_, _, _, ho⟩ | ⟨_, hv', _⟩⟩ |
    ⟨s, _, hv', _⟩
  · exact ho
  · exact ho
  · exact ho
  · rw [hv] at hv'; cases hv'
  · rw [hv] at hv'; cases hv'

/-- A stored object is stable under a mutate function when mutating what is
read back of it either changes nothing or is persisted as the same object. -/
theorem CreateOrPatch_stable (c : Cluster) (obj : Secret) (f : Secret → Secret)
    (hf : ∀ s, (f s).key = s.key) (s : Secret) (hst : c.stored obj.key = some s)
    (hstable : sameUnstructured (readBack s) (f (readBack s)) = true
      ∨ persisted (f (readBack s)) = s) :
    (CreateOrPatch c obj f).cluster.objects = c.objects := by
  rcases CreateOrPatch_cases c obj f hf with
    ⟨e, _, ho, _⟩ | ⟨_, _, _, ⟨e, _, _, ho⟩ | ⟨_, _, _, ho⟩ | ⟨_, _, hn, _⟩⟩ |
    ⟨s', _, _, hst', ⟨_, _, ho, _⟩ | ⟨hd, _, _, ⟨e, _, _, ho⟩ | ⟨_, _, ho⟩⟩⟩
  · exact ho
  · exact ho
  · exact ho
  · rw [hn] at hst; cases hst
  · exact ho
  · exact ho
  · rw [hst] at hst'
    cases hst'
    rcases hstable with hsame | hp
    · rw [hsame] at hd; cases hd
    · rw [ho, hp]
      have hs := stored_key c obj.key s hst
      unfold Cluster.stored at hst
      rw [← hs] at hst
      exact replaceObj_self c.objects s hst

theorem sameUnstructured_self (s : Secret) : sameUnstructured s s = true := by
  simp [sameUnstructured]

theorem sameUnstructured_false_of_get (a b : Secret) (k : String)
    (h : (entries a.StringData).get k ≠ (entries b.StringData).get k) :
    sameUnstructured a b = false := by
  unfold sameUnstructured
  rw [decide_eq_false_iff_not]
  rintro ⟨_, _, _, _, heq⟩
  exact h (by rw [heq])

theorem mutateFn_key (as : AppSecret) (kind token : String) (s : Secret) :
    (mutateFn as kind token s).key = s.key := rfl

theorem mutateFn_labels (as : AppSecret) (kind token : String) (s : Secret) :
    (mutateFn as kind token s).Labels = s.Labels := rfl

theorem populateSecret_idem (s : Secret) (kind token argocdType argocdURL username : String) :
    populateSecret (populateSecret s kind token argocdType argocdURL username)
        kind token argocdType argocdURL username
      = populateSecret s kind token argocdType argocdURL username := by
  have h : (populateSecret (populateSecret s kind token argocdType argocdURL username)
        kind token argocdType argocdURL username).StringData
      = (populateSecret s kind token argocdType argocdURL username).StringData := by
    rw [populateSecret_stringData_some,
      populateSecret_stringData_some s kind token argocdType argocdURL username]
    congr 1
    apply StrMap.ext
    intro k
    rw [populateSecret_get]
    cases hl : List.lookup k (tableRow kind token argocdType argocdURL username) with
    | none => rfl
    | some v => simp only [populateSecret_get, hl]
  calc populateSecret (populateSecret s kind token argocdType argocdURL username)
        kind token argocdType argocdURL username
      = { populateSecret s kind token argocdType argocdURL username with
          StringData := (populateSecret (populateSecret s kind token argocdType argocdURL
            username) kind token argocdType argocdURL username).StringData } := rfl
    _ = populateSecret s kind token argocdType argocdURL username := by rw [h]

theorem newSecret_stringData (key : ObjectKey) (kind : String) :
    (newSecret key kind).StringData = none := by
  unfold newSecret
  split_ifs <;> rfl

/-- After a successful `CreateOrUpdateSecret` the object stored under the key is
stable: mutating what is read back of it changes nothing, or is persisted as
the same object. -/
theorem CreateOrUpdateSecret_stable_after (as : AppSecret) (c : Cluster) (key : ObjectKey)
    (kind token : String) (hok : (CreateOrUpdateSecret as c key kind token).1 = none) :
    ∃ s', (CreateOrUpdateSecret as c key kind token).2.stored key = some s'
      ∧ (sameUnstructured (readBack s') (mutateFn as kind token (readBack s')) = true
        ∨ persisted (mutateFn as kind token (readBack s')) = s') := by
  have h := CreateOrPatch_stored_after c (newSecret key kind) (mutateFn as kind token)
    (mutateFn_key as kind token) hok
  rw [newSecret_key] at h
  have hgen : ∀ x : Secret, x.StringData = none →
      (sameUnstructured (readBack (persisted (mutateFn as kind token x)))
          (mutateFn as kind token (readBack (persisted (mutateFn as kind token x)))) = true
        ∨ persisted (mutateFn as kind token (readBack (persisted (mutateFn as kind token x))))
            = persisted (mutateFn as kind token x)) := by
    intro x hx
    rw [readBack_of_none _ (persisted_stringData _)]
    exact persisted_mutate_stable as kind token x hx
  rcases h with ⟨_, hs⟩ | ⟨s, _, ⟨hsame, _, hs⟩ | hs⟩
  · exact ⟨_, hs, hgen _ (newSecret_stringData key kind)⟩
  · exact ⟨s, hs, Or.inl hsame⟩
  · exact ⟨_, hs, hgen (readBack s) rfl⟩

/-- On an existing target a successful `CreateOrUpdateSecret` leaves under the
key an object with the labels found. -/
theorem CreateOrUpdateSecret_existing (as : AppSecret) (c : Cluster) (key : ObjectKey)
    (kind token : String) (s : Secret) (hst : c.stored key = some s)
    (hok : (CreateOrUpdateSecret as c key kind token).1 = none) :
    ∃ s', (CreateOrUpdateSecret as c key kind token).2.stored key = some s'
      ∧ s'.Labels = s.Labels := by
  have h := CreateOrPatch_stored_after c (newSecret key kind) (mutateFn as kind token)
    (mutateFn_key as kind token) hok
  rw [newSecret_key] at h
  rcases h with ⟨hn, _⟩ | ⟨s₁, hst₁, ⟨_, _, hs⟩ | hs⟩
  · rw [hn] at hst; cases hst
  · rw [hst] at hst₁; cases hst₁
    exact ⟨s, hs, rfl⟩
  · rw [hst] at hst₁; cases hst₁
    exact ⟨_, hs, by rw [persisted_labels]; rfl⟩

/-- On an absent target a successful `CreateOrUpdateSecret` stores the persisted
form of the mutated fresh struct, labels included. -/
theorem CreateOrUpdateSecret_absent (as : AppSecret) (c : Cluster) (key : ObjectKey)
    (kind token : String) (hst : c.stored key = none)
    (hok : (CreateOrUpdateSecret as c key kind token).1 = none) :
    (CreateOrUpdateSecret as c key kind token).2.stored key
      = some (persisted (mutateFn as kind token (newSecret key kind))) := by
  have h := CreateOrPatch_stored_after c (newSecret key kind) (mutateFn as kind token)
    (mutateFn_key as kind token) hok
  rw [newSecret_key] at h
  rcases h with ⟨_, hs⟩ | ⟨s₁, hst₁, _⟩
  · exact hs
  · rw [hst] at hst₁; cases hst₁

theorem CreateOrUpdateSecret_no_fault (as : AppSecret) (c : Cluster) (key : ObjectKey)
    (kind token : String) (h0 : c.faults = []) (hv : validKey key = true) :
    (CreateOrUpdateSecret as c key kind token).1 = none
      ∧ (CreateOrUpdateSecret as c key kind token).2.faults = [] :=
  CreateOrPatch_no_fault c (newSecret key kind) (mutateFn as kind token)
    (mutateFn_key as kind token) h0 (by rw [newSecret_key]; exact hv)

/-- Once a call has succeeded, a further call with the same arguments leaves the
object list as it is, whatever faults it meets. -/
theorem CreateOrUpdateSecret_second_call (as : AppSecret) (c : Cluster) (key : ObjectKey)
    (kind token : String) (hok : (CreateOrUpdateSecret as c key kind token).1 = none) :
    (CreateOrUpdateSecret as (CreateOrUpdateSecret as c key kind token).2 key kind token).2.objects
      = (CreateOrUpdateSecret as c key kind token).2.objects := by
  obtain ⟨s', hs', hstable⟩ := CreateOrUpdateSecret_stable_after as c key kind token hok
  have hsk : (CreateOrUpdateSecret as c key kind token).2.stored (newSecret key kind).key
      = some s' := by rw [newSecret_key]; exact hs'
  exact CreateOrPatch_stable _ (newSecret key kind) (mutateFn as kind token)
    (mutateFn_key as kind token) s' hsk hstable

/-- With no injected fault, two calls with the same arguments leave the object
list as one call leaves it, whether or not the calls succeed. -/
theorem CreateOrUpdateSecret_twice_no_fault (as : AppSecret) (c : Cluster) (key : ObjectKey)
    (kind token : String) (h0 : c.faults = []) :
    (CreateOrUpdateSecret as (CreateOrUpdateSecret as c key kind token).2 key kind token).2.objects
      = (CreateOrUpdateSecret as c key kind token).2.objects := by
  by_cases hv : validKey key = true
  · exact CreateOrUpdateSecret_second_call as c key kind token
      (CreateOrUpdateSecret_no_fault as c key kind token h0 hv).1
  · have hv' : validKey (newSecret key kind).key = false := by
      rw [newSecret_key]; simpa using hv
    exact CreateOrPatch_invalid_key _ (newSecret key kind) (mutateFn as kind token)
      (mutateFn_key as kind token) hv'

/-! ## Claims on populateSecret -/

/-- C1: applied to a secret whose StringData is nil or empty, `populateSecret`
yields exactly the table row of the kind: username and password for git, token
for plain, username, password, type and url for the two ArgoCD kinds. -/
theorem populateSecret_fresh_eq_table (s : Secret)
    (token argocdType argocdURL username : String)
    (hs : s.StringData = none ∨ s.StringData = some ∅) :
    (populateSecret s "git" token argocdType argocdURL username).StringData
        = some (mapOf [("username", username), ("password", token)])
    ∧ (populateSecret s "plain" token argocdType argocdURL username).StringData
        = some (mapOf [("token", token)])
    ∧ (populateSecret s "argocd" token argocdType argocdURL username).StringData
        = some (mapOf [("username", username), ("password", token), ("type", argocdType),
            ("url", argocdURL)])
    ∧ (populateSecret s "argocd-template" token argocdType argocdURL username).StringData
        = some (mapOf [("username", username), ("password", token), ("type", argocdType),
            ("url", argocdURL)])
    ∧ ∀ kind k, validKind kind →
        (entries (populateSecret s kind token argocdType argocdURL username).StringData).get k
          = (tableRow kind token argocdType argocdURL username).lookup k := by
  refine ⟨?_, ?_, ?_, ?_, ?_⟩
  · rw [populateSecret_fresh s _ _ _ _ _ hs]; simp [tableRow]
  · rw [populateSecret_fresh s _ _ _ _ _ hs]; simp [tableRow]
  · rw [populateSecret_fresh s _ _ _ _ _ hs]; simp [tableRow]
  · rw [populateSecret_fresh s _ _ _ _ _ hs]; simp [tableRow]
  · intro kind k _
    rw [populateSecret_fresh s _ _ _ _ _ hs]
    simp [entries, get_mapOf]

/-- Witness of C1: kind git, username "x-access-token", token "tok123" on the zero
secret. -/
theorem populateSecret_fresh_eq_table_witness :
    (populateSecret Secret.zero "git" "tok123" "git" "" "x-access-token").StringData
      = some (mapOf [("username", "x-access-token"), ("password", "tok123")]) :=
  (populateSecret_fresh_eq_table Secret.zero "tok123" "git" "" "x-access-token"
    (Or.inl rfl)).1

/-- C5: merge semantics of `populateSecret` for a valid kind: every key of the
kind's table row holds its table value afterwards, every other key is looked up
exactly as before (present iff it was present, same value), and StringData is
never nil afterwards. -/
theorem populateSecret_merge (s : Secret) (kind token argocdType argocdURL username : String)
    (hk : validKind kind) :
    (∀ k v, (k, v) ∈ tableRow kind token argocdType argocdURL username →
      (entries (populateSecret s kind token argocdType argocdURL username).StringData).get k
        = some v)
    ∧ (∀ k, k ∉ (tableRow kind token argocdType argocdURL username).map Prod.fst →
      (entries (populateSecret s kind token argocdType argocdURL username).StringData).get k
        = (entries s.StringData).get k)
    ∧ (populateSecret s kind token argocdType argocdURL username).StringData ≠ none
    ∧ (tableRow kind token argocdType argocdURL username).map Prod.fst
        = (if kind = "git" then ["username", "password"]
           else if kind = "plain" then ["token"]
           else ["username", "password", "type", "url"]) := by
  refine ⟨?_, ?_, ?_, ?_⟩
  · intro k v hmem
    rw [populateSecret_get, tableRow_lookup_of_mem _ _ _ _ _ _ _ hmem]
  · intro k hnot
    rw [populateSecret_get, tableRow_lookup_of_not_mem _ _ _ _ _ _ hnot]
  · simp [populateSecret]
  · rcases hk with h | h | h | h <;> subst h <;> simp [tableRow]

/-- Witness of C5: a git populate over a map holding "password" and "other". -/
theorem populateSecret_merge_witness :
    (entries (populateSecret
        { Name := "n", Namespace := "ns", Labels := none,
          StringData := some (mapOf [("password", "old"), ("other", "keep")]) }
        "git" "tok" "git" "" "u").StringData).get "password" = some "tok"
    ∧ (entries (populateSecret
        { Name := "n", Namespace := "ns", Labels := none,
          StringData := some (mapOf [("password", "old"), ("other", "keep")]) }
        "git" "tok" "git" "" "u").StringData).get "other" = some "keep" := by
  have h := populateSecret_merge
    { Name := "n", Namespace := "ns", Labels := none,
      StringData := some (mapOf [("password", "old"), ("other", "keep")]) }
    "git" "tok" "git" "" "u" (Or.inl rfl)
  refine ⟨h.1 "password" "tok" (by simp [tableRow]), ?_⟩
  rw [h.2.1 "other" (by simp [tableRow])]
  simp [entries, get_mapOf, lookup_cons_ite]

/-! ## Claims on validateInput and main -/

/-- C6: with an empty apiURL, `validateInput` returns an error exactly when appID
is 0, or installationID is 0, or privateKeyPath is empty, or secretName is
empty, or secretType is none of the four kinds, or secretType is an ArgoCD kind
with argocdType or argocdURL empty. -/
theorem validateInput_error_iff (urlParseOk : String → Bool) (cf : cmdFlags)
    (hurl : cf.apiURL = "") :
    (validateInput urlParseOk cf ≠ none) ↔
      (cf.appID = 0 ∨ cf.installationID = 0 ∨ cf.privateKeyPath = "" ∨ cf.secretName = ""
        ∨ ¬ validKind cf.secretType
        ∨ ((cf.secretType = "argocd" ∨ cf.secretType = "argocd-template")
            ∧ (cf.argocdType = "" ∨ cf.argocdURL = ""))) := by
  unfold validateInput validKind
  simp only [hurl, SecretGit, SecretPlain, SecretArgoCD, SecretArgoCDTemplate]
  by_cases h1 : cf.appID = 0
  · simp [h1]
  by_cases h2 : cf.installationID = 0
  · simp [h1, h2]
  by_cases h3 : cf.privateKeyPath = ""
  · simp [h1, h2, h3]
  by_cases h4 : cf.secretName = ""
  · simp [h1, h2, h3, h4]
  by_cases h5 : cf.secretType = "plain"
  · simp [h1, h2, h3, h4, h5]
  by_cases h6 : cf.secretType = "git"
  · simp [h1, h2, h3, h4, h6]
  by_cases h7 : cf.secretType = "argocd"
  · by_cases h8 : cf.argocdType = "" <;> by_cases h9 : cf.argocdURL = "" <;>
      simp [h1, h2, h3, h4, h7, h8, h9]
  by_cases h10 : cf.secretType = "argocd-template"
  · by_cases h8 : cf.argocdType = "" <;> by_cases h9 : cf.argocdURL = "" <;>
      simp [h1, h2, h3, h4, h10, h8, h9]
  simp [h1, h2, h3, h4, h5, h6, h7, h10]

/-- Witness of C6: an argocd configuration with an empty argocdURL is rejected. -/
theorem validateInput_error_iff_witness :
    validateInput (fun _ => true)
      { logLevel := 0, apiURL := "", appID := 7, installationID := 9,
        privateKeyPath := "/key.pem", secretType := "argocd", timeout := 15,
        secretName := "s", secretNamespace := "", argocdType := "git", argocdURL := "",
        username := "x-access-token" } ≠ none :=
  (validateInput_error_iff (fun _ => true)
    { logLevel := 0, apiURL := "", appID := 7, installationID := 9,
      privateKeyPath := "/key.pem", secretType := "argocd", timeout := 15,
      secretName := "s", secretNamespace := "", argocdType := "git", argocdURL := "",
      username := "x-access-token" } rfl).2
    (Or.inr (Or.inr (Or.inr (Or.inr (Or.inr ⟨Or.inl rfl, Or.inr rfl⟩)))))

/-- C7 as stated fails: `validateInput` accepts appID -1 and installationID -5. -/
theorem validateInput_accepts_negative_ids :
    ¬ (∀ (urlParseOk : String → Bool) (cf : cmdFlags), validateInput urlParseOk cf = none →
        0 < cf.appID ∧ 0 < cf.installationID) := by
  intro h
  have h0 : validateInput (fun _ => true) negativeIDs = none := by
    simp [validateInput, negativeIDs, SecretGit, SecretPlain]
  have := (h (fun _ => true) negativeIDs h0).1
  simp [negativeIDs] at this

/-- C7 amended: every configuration `validateInput` accepts has appID and
installationID different from 0, and these are the IDs `main` passes to
`NewAppSecret`. -/
theorem validateInput_ids_nonzero (urlParseOk : String → Bool) (cf : cmdFlags)
    (h : validateInput urlParseOk cf = none) :
    cf.appID ≠ 0 ∧ cf.installationID ≠ 0
    ∧ (NewAppSecret cf.apiURL cf.privateKeyPath cf.appID cf.installationID cf.argocdType
        cf.argocdURL cf.username).appID ≠ 0
    ∧ (NewAppSecret cf.apiURL cf.privateKeyPath cf.appID cf.installationID cf.argocdType
        cf.argocdURL cf.username).installationID ≠ 0 := by
  unfold validateInput at h
  have h1 : cf.appID ≠ 0 := by
    intro h0; simp only [h0, if_true] at h; split_ifs at h
  have h2 : cf.installationID ≠ 0 := by
    intro h0; simp only [h0, h1, if_true, if_false] at h; split_ifs at h
  exact ⟨h1, h2, h1, h2⟩

/-- Witness of C7 amended, at the configuration with negative IDs. -/
theorem validateInput_ids_nonzero_witness :
    negativeIDs.appID ≠ 0 ∧ negativeIDs.installationID ≠ 0 :=
  have h := validateInput_ids_nonzero (fun _ => true) negativeIDs
    (by simp [validateInput, negativeIDs, SecretGit, SecretPlain])
  ⟨h.1, h.2.1⟩

/-- C9: the namespace of the secret key is the flag when non-empty, else the
NAMESPACE environment value when non-empty, else "default"; for an accepted
configuration both fields of the key are non-empty. -/
theorem secretKey_namespace (urlParseOk : String → Bool) (cf : cmdFlags) (env : String) :
    (secretKey cf env).Namespace
        = (if cf.secretNamespace ≠ "" then cf.secretNamespace
           else if env ≠ "" then env else "default")
    ∧ (secretKey cf env).Name = cf.secretName
    ∧ (validateInput urlParseOk cf = none →
        (secretKey cf env).Namespace ≠ "" ∧ (secretKey cf env).Name ≠ "") := by
  have hns : (secretKey cf env).Namespace
      = (if cf.secretNamespace ≠ "" then cf.secretNamespace
         else if env ≠ "" then env else "default") := by
    simp only [secretKey, resolveNamespace]
    by_cases hf : cf.secretNamespace = "" <;> by_cases he : env = "" <;> simp [hf, he]
  refine ⟨hns, rfl, ?_⟩
  intro h
  constructor
  · rw [hns]
    by_cases hf : cf.secretNamespace = "" <;> by_cases he : env = "" <;> simp [hf, he]
  · intro h0
    have h0' : cf.secretName = "" := h0
    unfold validateInput at h
    simp only [h0'] at h
    split_ifs at h

/-- Witness of C9: no flag, environment "prod", an accepted configuration. -/
theorem secretKey_namespace_witness :
    (secretKey negativeIDs "prod").Namespace = "prod"
    ∧ (secretKey negativeIDs "prod").Namespace ≠ "" ∧ (secretKey negativeIDs "prod").Name ≠ "" :=
  have h := secretKey_namespace (fun _ => true) negativeIDs "prod"
  ⟨by rw [h.1]; simp [negativeIDs],
   h.2.2 (by simp [validateInput, negativeIDs, SecretGit, SecretPlain])⟩

/-! ## Claims on GenerateAndCreate -/

/-- C10: if `GenerateToken` returns an error, `GenerateAndCreate` returns that
error and leaves the cluster untouched (no API call at all); if it returns a
token, the result is exactly that of `CreateOrUpdateSecret` with the token. -/
theorem GenerateAndCreate_all_or_nothing (gh : GitHub) (as : AppSecret) (c : Cluster)
    (key : ObjectKey) (kind : String) :
    (∀ e, GenerateToken gh as = Except.error e →
      GenerateAndCreate gh as c key kind = (some e, c))
    ∧ (∀ t, GenerateToken gh as = Except.ok t →
      GenerateAndCreate gh as c key kind = CreateOrUpdateSecret as c key kind t) := by
  constructor
  · intro e h; simp [GenerateAndCreate, h]
  · intro t h; simp [GenerateAndCreate, h]

/-- Witness of C10: a provider that fails leaves the cluster untouched, and a
provider that returns "tok123" gives the result of the secret write. -/
theorem GenerateAndCreate_all_or_nothing_witness :
    GenerateAndCreate failingGitHub sampleApp clusterWithTarget targetKey "git"
        = (some (GoError.Other "could not read private key"), clusterWithTarget)
    ∧ GenerateAndCreate cannedGitHub sampleApp clusterWithTarget targetKey "git"
        = CreateOrUpdateSecret sampleApp clusterWithTarget targetKey "git" "tok123" :=
  ⟨(GenerateAndCreate_all_or_nothing failingGitHub sampleApp clusterWithTarget targetKey "git").1
      (GoError.Other "could not read private key") rfl,
   (GenerateAndCreate_all_or_nothing cannedGitHub sampleApp clusterWithTarget targetKey "git").2
      "tok123" rfl⟩

/-! ## Claims on CreateOrUpdateSecret -/

theorem targetKey_valid : validKey targetKey = true := by
  simp [validKey, targetKey]

theorem clusterWithTarget_stored : clusterWithTarget.stored targetKey = some plainTarget := by
  simp [Cluster.stored, clusterWithTarget, plainTarget, targetKey, Secret.key]

theorem clusterWithLabelled_stored :
    clusterWithLabelled.stored targetKey = some labelledTarget := by
  simp [Cluster.stored, clusterWithLabelled, labelledTarget, targetKey, Secret.key]

theorem conflictCluster_stored : conflictCluster.stored targetKey = some plainTarget := by
  simp [Cluster.stored, conflictCluster, plainTarget, targetKey, Secret.key]

/-- C2, evaluated: on a cluster where the target already exists without labels, a
successful `CreateOrUpdateSecret` of kind argocd leaves the stored object without
the secret-type label, while on an empty cluster the same call stores the label
with value "repository". -/
theorem CreateOrUpdateSecret_argocd_label_lost :
    (CreateOrUpdateSecret sampleApp clusterWithTarget targetKey "argocd" "tok456").1 = none
    ∧ (∃ s', (CreateOrUpdateSecret sampleApp clusterWithTarget targetKey "argocd"
          "tok456").2.stored targetKey = some s'
        ∧ (entries s'.Labels).get secretTypeLabel = none)
    ∧ (CreateOrUpdateSecret sampleApp emptyCluster targetKey "argocd" "tok456").1 = none
    ∧ (∃ s', (CreateOrUpdateSecret sampleApp emptyCluster targetKey "argocd"
          "tok456").2.stored targetKey = some s'
        ∧ (entries s'.Labels).get secretTypeLabel = some "repository") := by
  have hok := (CreateOrUpdateSecret_no_fault sampleApp clusterWithTarget targetKey "argocd"
    "tok456" rfl targetKey_valid).1
  have hok' := (CreateOrUpdateSecret_no_fault sampleApp emptyCluster targetKey "argocd"
    "tok456" rfl targetKey_valid).1
  refine ⟨hok, ?_, hok', ?_⟩
  · obtain ⟨s', hs', hl⟩ := CreateOrUpdateSecret_existing sampleApp clusterWithTarget
      targetKey "argocd" "tok456" plainTarget clusterWithTarget_stored hok
    refine ⟨s', hs', ?_⟩
    rw [hl]
    simp [plainTarget, entries, StrMap.get_empty]
  · refine ⟨_, CreateOrUpdateSecret_absent sampleApp emptyCluster targetKey "argocd" "tok456"
      rfl hok', ?_⟩
    rw [persisted_labels, mutateFn_labels]
    simp [newSecret, SecretArgoCD, entries, StrMap.get_set_self]

/-- C3: a successful `CreateOrUpdateSecret` on an existing target, for any kind,
leaves the stored object with exactly the label map it had; in particular every
label with a key other than the secret-type key keeps its value. -/
theorem CreateOrUpdateSecret_keeps_labels (as : AppSecret) (c : Cluster) (key : ObjectKey)
    (kind token : String) (s : Secret) (hst : c.stored key = some s)
    (hok : (CreateOrUpdateSecret as c key kind token).1 = none) :
    ∃ s', (CreateOrUpdateSecret as c key kind token).2.stored key = some s'
      ∧ s'.Labels = s.Labels
      ∧ ∀ k v, k ≠ secretTypeLabel → (entries s.Labels).get k = some v →
          (entries s'.Labels).get k = some v := by
  obtain ⟨s', hs', hl⟩ := CreateOrUpdateSecret_existing as c key kind token s hst hok
  refine ⟨s', hs', hl, ?_⟩
  intro k v _ hv
  rw [hl]
  exact hv

/-- Witness of C3: an argocd upsert over a target labelled team=a keeps that
label. -/
theorem CreateOrUpdateSecret_keeps_labels_witness :
    ∃ s', (CreateOrUpdateSecret sampleApp clusterWithLabelled targetKey "argocd"
          "tok456").2.stored targetKey = some s'
      ∧ s'.Labels = labelledTarget.Labels
      ∧ (entries s'.Labels).get "team" = some "a" := by
  obtain ⟨s', hs', hl, hk⟩ := CreateOrUpdateSecret_keeps_labels sampleApp clusterWithLabelled
    targetKey "argocd" "tok456" labelledTarget clusterWithLabelled_stored
    (CreateOrUpdateSecret_no_fault sampleApp clusterWithLabelled targetKey "argocd"
      "tok456" rfl targetKey_valid).1
  refine ⟨s', hs', hl, hk "team" "a" (by simp [secretTypeLabel]) ?_⟩
  simp [labelledTarget, entries, get_mapOf, lookup_cons_ite]

/-- C4: for every list of stored objects and every key, kind and token, running
`CreateOrUpdateSecret` twice with the same arguments leaves every stored object,
the one under the key included, exactly as the first call left it; under an
arbitrary script of injected API errors the same holds whenever the first call
returned no error; and `populateSecret` applied twice equals `populateSecret`
applied once. The second call may send the same patch again: the server folds
it into the same data. -/
theorem CreateOrUpdateSecret_idempotent (as : AppSecret) (objs : List Secret) (c : Cluster)
    (key : ObjectKey) (kind token : String) :
    ((CreateOrUpdateSecret as (CreateOrUpdateSecret as (faultFree objs) key kind token).2 key
          kind token).2.objects
        = (CreateOrUpdateSecret as (faultFree objs) key kind token).2.objects
      ∧ (CreateOrUpdateSecret as (CreateOrUpdateSecret as (faultFree objs) key kind token).2 key
          kind token).2.stored key
        = (CreateOrUpdateSecret as (faultFree objs) key kind token).2.stored key)
    ∧ ((CreateOrUpdateSecret as c key kind token).1 = none →
      (CreateOrUpdateSecret as (CreateOrUpdateSecret as c key kind token).2 key kind
          token).2.objects = (CreateOrUpdateSecret as c key kind token).2.objects
      ∧ (CreateOrUpdateSecret as (CreateOrUpdateSecret as c key kind token).2 key kind
          token).2.stored key = (CreateOrUpdateSecret as c key kind token).2.stored key)
    ∧ ∀ (s : Secret) (argocdType argocdURL username : String),
        populateSecret (populateSecret s kind token argocdType argocdURL username)
            kind token argocdType argocdURL username
          = populateSecret s kind token argocdType argocdURL username := by
  refine ⟨?_, ?_, ?_⟩
  · have h := CreateOrUpdateSecret_twice_no_fault as (faultFree objs) key kind token rfl
    refine ⟨h, ?_⟩
    unfold Cluster.stored
    rw [h]
  · intro hok
    have h := CreateOrUpdateSecret_second_call as c key kind token hok
    refine ⟨h, ?_⟩
    unfold Cluster.stored
    rw [h]
  · intro s argocdType argocdURL username
    exact populateSecret_idem s kind token argocdType argocdURL username

/-- Witness of C4: two git upserts over the existing target; the first succeeds
and the second leaves the objects as they are. -/
theorem CreateOrUpdateSecret_idempotent_witness :
    (CreateOrUpdateSecret sampleApp clusterWithTarget targetKey "git" "tok123").1 = none
    ∧ (CreateOrUpdateSecret sampleApp
        (CreateOrUpdateSecret sampleApp clusterWithTarget targetKey "git" "tok123").2
        targetKey "git" "tok123").2.objects
      = (CreateOrUpdateSecret sampleApp clusterWithTarget targetKey "git" "tok123").2.objects :=
  have hok := (CreateOrUpdateSecret_no_fault sampleApp clusterWithTarget targetKey "git"
    "tok123" rfl targetKey_valid).1
  ⟨hok, ((CreateOrUpdateSecret_idempotent sampleApp [plainTarget] clusterWithTarget targetKey
    "git" "tok123").2.1 hok).1⟩

/-- The run on `conflictCluster`: one Get, one Patch that fails with the
conflict, nothing stored, and the fault script used up. -/
theorem conflict_run :
    (CreateOrUpdateSecret sampleApp conflictCluster targetKey "git" "tok123").1
        = some GoError.Conflict
    ∧ (CreateOrUpdateSecret sampleApp conflictCluster targetKey "git" "tok123").2.log
        = [Call.Get targetKey, Call.Patch targetKey]
    ∧ (CreateOrUpdateSecret sampleApp conflictCluster targetKey "git" "tok123").2.objects
        = [plainTarget]
    ∧ (CreateOrUpdateSecret sampleApp conflictCluster targetKey "git" "tok123").2.faults
        = [] := by
  have hdiff : sameUnstructured (readBack plainTarget)
      (mutateFn sampleApp "git" "tok123" (readBack plainTarget)) = false := by
    apply sameUnstructured_false_of_get _ _ "password"
    rw [mutateFn, populateSecret_get]
    simp [tableRow, lookup_cons_ite, plainTarget, readBack, entries, StrMap.get_empty]
  have hkey : (newSecret targetKey "git").key = targetKey := newSecret_key _ _
  have hc := CreateOrPatch_cases conflictCluster (newSecret targetKey "git")
    (mutateFn sampleApp "git" "tok123") (mutateFn_key sampleApp "git" "tok123")
  rw [hkey, conflictCluster_stored] at hc
  rcases hc with
    ⟨e, _, _, _, _, ⟨hg, _⟩ | ⟨_, hiv⟩⟩ | ⟨hg, _⟩ |
    ⟨s, _, _, hst, ⟨hsame, _⟩ | ⟨_, hfl, hl, ⟨e, hg2, he, ho⟩ | ⟨hg2, _⟩⟩⟩
  · simp [conflictCluster] at hg
  · rw [targetKey_valid] at hiv; cases hiv
  · rcases hg with hg | ⟨_, _, hg⟩
    · simp [conflictCluster] at hg
    · cases hg
  · cases hst
    rw [hdiff] at hsame
    cases hsame
  · have he' : e = GoError.Conflict := by
      simp [conflictCluster] at hg2
      exact hg2.symm
    subst he'
    exact ⟨he, by rw [show (CreateOrUpdateSecret sampleApp conflictCluster targetKey "git"
        "tok123").2.log = _ from hl]; rfl, ho, hfl⟩
  · simp [conflictCluster] at hg2

/-- C8 as stated fails: on `conflictCluster` the call returns the conflict error
after a single Get and a single Patch, with no second cycle, although the same
call repeated on the resulting cluster succeeds. -/
theorem CreateOrUpdateSecret_conflict_not_retried :
    (CreateOrUpdateSecret sampleApp conflictCluster targetKey "git" "tok123").1
        = some GoError.Conflict
    ∧ (CreateOrUpdateSecret sampleApp conflictCluster targetKey "git" "tok123").2.log
        = [Call.Get targetKey, Call.Patch targetKey]
    ∧ (CreateOrUpdateSecret sampleApp
        (CreateOrUpdateSecret sampleApp conflictCluster targetKey "git" "tok123").2
        targetKey "git" "tok123").1 = none :=
  ⟨conflict_run.1, conflict_run.2.1,
    (CreateOrUpdateSecret_no_fault sampleApp _ targetKey "git" "tok123" conflict_run.2.2.2
      targetKey_valid).1⟩

/-- C8 amended: `CreateOrUpdateSecret` runs one read-modify-write cycle and never
retries: it issues one Get followed by at most one Create or Patch, and when the
Get passes and the write is attempted and fails with an error (a conflict
included), that error is returned and no object is changed. -/
theorem CreateOrUpdateSecret_single_cycle (as : AppSecret) (c : Cluster) (key : ObjectKey)
    (kind token : String) :
    ((CreateOrUpdateSecret as c key kind token).2.log = c.log ++ [Call.Get key]
      ∨ (CreateOrUpdateSecret as c key kind token).2.log
          = c.log ++ [Call.Get key, Call.Create key]
      ∨ (CreateOrUpdateSecret as c key kind token).2.log
          = c.log ++ [Call.Get key, Call.Patch key])
    ∧ ∀ e rest, c.faults = none :: some e :: rest →
        (CreateOrUpdateSecret as c key kind token).2.log.length = c.log.length + 2 →
        (CreateOrUpdateSecret as c key kind token).1 = some e
          ∧ (CreateOrUpdateSecret as c key kind token).2.objects = c.objects := by
  constructor
  · have h := CreateOrPatch_log c (newSecret key kind) (mutateFn as kind token)
      (mutateFn_key as kind token)
    rw [newSecret_key] at h
    exact h
  · intro e rest hfl hlen
    exact CreateOrPatch_write_error c (newSecret key kind) (mutateFn as kind token)
      (mutateFn_key as kind token) e rest hfl hlen

/-- Witness of C8 amended, on `conflictCluster`. -/
theorem CreateOrUpdateSecret_single_cycle_witness :
    (CreateOrUpdateSecret sampleApp conflictCluster targetKey "git" "tok123").1
        = some GoError.Conflict
    ∧ (CreateOrUpdateSecret sampleApp conflictCluster targetKey "git" "tok123").2.objects
        = conflictCluster.objects :=
  (CreateOrUpdateSecret_single_cycle sampleApp conflictCluster targetKey "git" "tok123").2
    GoError.Conflict [] rfl (by rw [conflict_run.2.1]; rfl)

end GithubAppSecret
